import Mathlib

/-!
Verification of the hex-coordinate movement logic of the Lone U-Boat game
(src/main.py).  The submarine state (`row`, `col`, `orientation`) and its two
operations `turn` and `move_forward` are embedded as pure functions on a
record; Python integers become `Int` (Python's `row & 1` equals `row % 2`,
and `// 2` here is exact division of an even number, so Lean's Euclidean
`%`/`/` on `Int` agree with Python on every input), and the fixed module-level
map and game-state dictionaries become constant definitions.
-/

namespace LoneUBoat

/-- Terrain code for deep water (`DEEP_WATER = 1` in src/main.py). -/
def DEEP_WATER : Nat := 1

/-- Terrain code for shallow water (`SHALLOW_WATER = 2`). -/
def SHALLOW_WATER : Nat := 2

/-- Terrain code for land (`LAND = 3`). -/
def LAND : Nat := 3

/-- Terrain code for out-of-bounds tiles (`OUT_OF_BOUNDS = 0`). -/
def OUT_OF_BOUNDS : Nat := 0

/-- The fixed map layout `game_map` of src/main.py: 13 rows of 15 terrain
codes. -/
def game_map : List (List Nat) :=
  [[0, 0, 1, 1, 1, 1, 1, 1, 1, 1, 1, 1, 1, 0, 0],
   [0, 1, 1, 1, 1, 1, 1, 1, 1, 1, 1, 1, 1, 1, 0],
   [1, 1, 1, 2, 2, 1, 1, 1, 1, 1, 1, 1, 1, 1, 1],
   [1, 1, 2, 2, 3, 2, 1, 1, 1, 1, 1, 1, 1, 1, 1],
   [1, 1, 2, 3, 3, 2, 2, 1, 1, 1, 1, 1, 1, 1, 1],
   [1, 1, 1, 2, 2, 2, 2, 2, 1, 1, 1, 1, 1, 1, 1],
   [1, 1, 1, 1, 1, 2, 3, 2, 1, 1, 1, 1, 1, 1, 1],
   [1, 1, 1, 1, 2, 2, 2, 2, 2, 1, 1, 1, 1, 1, 1],
   [1, 1, 1, 1, 2, 3, 2, 1, 1, 1, 1, 1, 1, 1, 1],
   [1, 1, 1, 1, 2, 2, 2, 1, 1, 1, 1, 1, 1, 1, 1],
   [1, 1, 1, 1, 1, 1, 1, 1, 1, 1, 1, 1, 1, 1, 1],
   [0, 1, 1, 1, 1, 1, 1, 1, 1, 1, 1, 1, 1, 1, 0],
   [0, 0, 1, 1, 1, 1, 1, 1, 1, 1, 1, 1, 1, 0, 0]]

/-- The mutable fields of the `Uboat` sprite that the movement logic touches:
`self.row`, `self.col`, `self.orientation`. -/
structure Uboat where
  row : Int
  col : Int
  orientation : Int
deriving Repr, DecidableEq

/-- `Uboat.turn`: `self.orientation = (self.orientation + direction + 6) % 6`.
`direction` is `1` for clockwise, `-1` for counter-clockwise. -/
def turn (u : Uboat) (direction : Int) : Uboat :=
  { u with orientation := (u.orientation + direction + 6) % 6 }

/-- The `cube_directions` table of `Uboat.move_forward`: unit cube vectors
`(q, r, s)` for NE, E, SE, SW, W, NW. -/
def cube_directions : List (Int × Int × Int) :=
  [(1, -1, 0), (1, 0, -1), (0, 1, -1), (-1, 1, 0), (-1, 0, 1), (0, -1, 1)]

/-- The `orientation_to_cube_map` table: orientations 0:E, 1:SE, 2:SW, 3:W,
4:NW, 5:NE index into `cube_directions`. -/
def orientation_to_cube_map : List Nat := [1, 2, 3, 4, 5, 0]

/-- The cube direction selected by the current orientation:
`cube_directions[orientation_to_cube_map[self.orientation]]`.
The `getD` defaults are never reached for orientations 0-5 (the only values
Python ever indexes with). -/
def cube_direction_of (o : Int) : Int × Int × Int :=
  cube_directions.getD (orientation_to_cube_map.getD o.toNat 0) (0, 0, 0)

/-- Offset-to-cube conversion of `Uboat.move_forward`:
`q = self.col - (self.row - (self.row & 1)) // 2`, `r = self.row`,
`s = -q - r`. -/
def offset_to_cube (row col : Int) : Int × Int × Int :=
  let q := col - (row - row % 2) / 2
  (q, row, -q - row)

/-- Cube-to-offset conversion of `Uboat.move_forward`:
`new_row = new_r`, `new_col = new_q + (new_r - (new_r & 1)) // 2`. -/
def cube_to_offset (q r : Int) : Int × Int :=
  (r, q + (r - r % 2) / 2)

/-- The target coordinate `(new_row, new_col)` computed by
`Uboat.move_forward` before validation: convert offset to cube, add the
direction vector for the current orientation, convert back.  (The code also
computes `new_s = s + ds`, which the offset conversion does not use.) -/
def moveTarget (u : Uboat) : Int × Int :=
  let c := offset_to_cube u.row u.col
  let d := cube_direction_of u.orientation
  cube_to_offset (c.1 + d.1) (c.2.1 + d.2.1)

/-- The bounds check of `Uboat.move_forward`:
`0 <= new_row < len(game_map) and 0 <= new_col < len(game_map[0])`. -/
def inBounds (row col : Int) : Prop :=
  0 ≤ row ∧ row < (game_map.length : Int) ∧
    0 ≤ col ∧ col < ((game_map.getD 0 []).length : Int)

instance (row col : Int) : Decidable (inBounds row col) := by
  unfold inBounds
  exact inferInstance

/-- Terrain lookup `game_map[new_row][new_col]`, total with default
`OUT_OF_BOUNDS`; `move_forward` only reads it after the bounds check. -/
def terrain_at (row col : Int) : Nat :=
  (game_map.getD row.toNat []).getD col.toNat OUT_OF_BOUNDS

/-- The water test of `Uboat.move_forward`:
`terrain == DEEP_WATER or terrain == SHALLOW_WATER`. -/
def isWater (t : Nat) : Prop :=
  t = DEEP_WATER ∨ t = SHALLOW_WATER

instance (t : Nat) : Decidable (isWater t) := by
  unfold isWater
  exact inferInstance

/-- `Uboat.move_forward`: compute the target coordinate, then commit it only
if it is within bounds and its terrain is water; otherwise the state is
unchanged (the attempt is silently ignored, no error is raised). -/
def move_forward (u : Uboat) : Uboat :=
  let t := moveTarget u
  if inBounds t.1 t.2 then
    if isWater (terrain_at t.1 t.2) then
      { u with row := t.1, col := t.2 }
    else u
  else u

/-- The game-state dictionary `game_state` of src/main.py as a record.  The
code initializes it once and never updates any field. -/
structure GameState where
  uboat_pos : Int × Int
  uboat_orientation : Int
  detection_level : Nat
  hull_damage : Nat
  torpedo_tubes : List (String × String)
  crew_status : List (String × String)
  system_damage : List (String × String)
deriving Repr, DecidableEq

/-- The initial value of `game_state` in src/main.py. -/
def init_game_state : GameState where
  uboat_pos := (7, 7)
  uboat_orientation := 0
  detection_level := 1
  hull_damage := 2
  torpedo_tubes :=
    [("1", "loaded"), ("2", "loaded"), ("3", "empty"), ("4", "damaged"),
     ("5", "loaded")]
  crew_status :=
    [("Captain", "OK"), ("Sonar Operator", "OK"), ("Engineer", "KIA"),
     ("Weapons Officer", "OK"), ("Lookout", "OK"), ("Med Officer", "OK")]
  system_damage :=
    [("Engine", "damaged"), ("Flak Gun", "OK"), ("Deck Gun", "OK")]

/-- The runtime state the event loop can touch: the U-Boat sprite, the
game-state bag, and the terrain array (a module-level binding that no
statement ever reassigns). -/
structure World where
  uboat : Uboat
  game_state : GameState
  map : List (List Nat)
deriving Repr, DecidableEq

/-- The three movement keys the event loop reacts to. -/
inductive Key where
  | K_a : Key
  | K_d : Key
  | K_w : Key
deriving Repr, DecidableEq

/-- The `KEYDOWN` dispatch of the main loop: `K_d` turns clockwise, `K_a`
counter-clockwise, `K_w` moves forward.  Only the sprite is mutated. -/
def handleKey (w : World) (k : Key) : World :=
  match k with
  | Key.K_d => { w with uboat := turn w.uboat 1 }
  | Key.K_a => { w with uboat := turn w.uboat (-1) }
  | Key.K_w => { w with uboat := move_forward w.uboat }

/-- The initial U-Boat state: `game_state["uboat_pos"] = (7, 7)`,
`game_state["uboat_orientation"] = 0`. -/
def init_uboat : Uboat where
  row := 7
  col := 7
  orientation := 0

/-- A discrete movement operation, as triggered by one key press. -/
inductive Op where
  | turnCW : Op
  | turnCCW : Op
  | moveF : Op
deriving Repr, DecidableEq

/-- Apply one operation to the U-Boat state. -/
def applyOp (u : Uboat) : Op → Uboat
  | Op.turnCW => turn u 1
  | Op.turnCCW => turn u (-1)
  | Op.moveF => move_forward u

/-- Run a finite sequence of operations from the initial U-Boat state. -/
def runOps (ops : List Op) : Uboat :=
  ops.foldl applyOp init_uboat

/-- The state invariant: position in bounds on a water tile, orientation an
integer in 0-5. -/
def Inv (u : Uboat) : Prop :=
  inBounds u.row u.col ∧ isWater (terrain_at u.row u.col) ∧
    0 ≤ u.orientation ∧ u.orientation < 6

instance (u : Uboat) : Decidable (Inv u) := by
  unfold Inv
  exact inferInstance

/- ### Helper lemmas -/

theorem move_forward_orientation_eq (u : Uboat) :
    (move_forward u).orientation = u.orientation := by
  simp only [move_forward]
  split
  · split
    · rfl
    · rfl
  · rfl

theorem move_forward_eq_target (u : Uboat)
    (hb : inBounds (moveTarget u).1 (moveTarget u).2)
    (hw : isWater (terrain_at (moveTarget u).1 (moveTarget u).2)) :
    move_forward u =
      { u with row := (moveTarget u).1, col := (moveTarget u).2 } := by
  simp only [move_forward]
  rw [if_pos hb, if_pos hw]

theorem move_forward_eq_self (u : Uboat)
    (h : ¬(inBounds (moveTarget u).1 (moveTarget u).2 ∧
        isWater (terrain_at (moveTarget u).1 (moveTarget u).2))) :
    move_forward u = u := by
  simp only [move_forward]
  split
  · split
    · rename_i hb hw
      exact absurd ⟨hb, hw⟩ h
    · rfl
  · rfl

theorem turn_orientation_lt (u : Uboat) (d : Int) :
    0 ≤ (turn u d).orientation ∧ (turn u d).orientation < 6 := by
  refine ⟨Int.emod_nonneg _ (by norm_num), Int.emod_lt_of_pos _ (by norm_num)⟩

theorem turn_preserves_Inv (u : Uboat) (d : Int) (h : Inv u) :
    Inv (turn u d) := by
  obtain ⟨h1, h2, _, _⟩ := h
  exact ⟨h1, h2, (turn_orientation_lt u d).1, (turn_orientation_lt u d).2⟩

theorem move_forward_preserves_Inv (u : Uboat) (h : Inv u) :
    Inv (move_forward u) := by
  obtain ⟨h1, h2, h3, h4⟩ := h
  simp only [move_forward]
  split
  · split
    · rename_i hb hw
      exact ⟨hb, hw, h3, h4⟩
    · exact ⟨h1, h2, h3, h4⟩
  · exact ⟨h1, h2, h3, h4⟩

theorem applyOp_preserves_Inv (u : Uboat) (op : Op) (h : Inv u) :
    Inv (applyOp u op) := by
  cases op with
  | turnCW => exact turn_preserves_Inv u 1 h
  | turnCCW => exact turn_preserves_Inv u (-1) h
  | moveF => exact move_forward_preserves_Inv u h

theorem Inv_init : Inv init_uboat := by decide

theorem foldl_preserves_Inv (ops : List Op) (u : Uboat) (h : Inv u) :
    Inv (ops.foldl applyOp u) := by
  induction ops generalizing u with
  | nil => exact h
  | cons op rest ih => exact ih (applyOp u op) (applyOp_preserves_Inv u op h)

/- ### Claim theorems -/

/-- C4: for every orientation in 0-5 and delta in {+1, -1}, `turn delta` sets
the orientation to `(orientation + delta + 6) % 6`. -/
theorem turn_formula (u : Uboat) (d : Int)
    (_ho : 0 ≤ u.orientation ∧ u.orientation < 6) (_hd : d = 1 ∨ d = -1) :
    (turn u d).orientation = (u.orientation + d + 6) % 6 := rfl

/-- Witness for C4 at orientation 0, delta +1. -/
theorem turn_formula_witness :
    (turn init_uboat 1).orientation = (init_uboat.orientation + 1 + 6) % 6 :=
  turn_formula init_uboat 1 (by decide) (Or.inl rfl)

/-- C6: for every orientation in 0-5, six successive `turn 1` calls return
the orientation to its original value. -/
theorem turn_six_times_id (u : Uboat)
    (ho : 0 ≤ u.orientation ∧ u.orientation < 6) :
    (turn (turn (turn (turn (turn (turn u 1) 1) 1) 1) 1) 1).orientation =
      u.orientation := by
  obtain ⟨h0, h1⟩ := ho
  simp only [turn]
  omega

/-- Witness for C6 at the initial state. -/
theorem turn_six_times_id_witness :
    (turn (turn (turn (turn (turn (turn init_uboat 1) 1) 1) 1) 1)
        1).orientation = init_uboat.orientation :=
  turn_six_times_id init_uboat (by decide)

/-- C9: `move_forward` never changes the orientation, whether the move is
committed or blocked. -/
theorem move_forward_frame_orientation (u : Uboat) :
    (move_forward u).orientation = u.orientation :=
  move_forward_orientation_eq u

/-- C10: the offset-to-cube conversion (`q = col - (row - row % 2) / 2`,
`r = row`, `s = -q - r`) and the cube-to-offset conversion (`row = r`,
`col = q + (r - r % 2) / 2`) used by `move_forward` are mutually inverse on
all integer inputs. -/
theorem offset_cube_roundtrip (row col q r : Int) :
    cube_to_offset (offset_to_cube row col).1 (offset_to_cube row col).2.1 =
        (row, col) ∧
      offset_to_cube (cube_to_offset q r).1 (cube_to_offset q r).2 =
        (q, r, -q - r) := by
  refine ⟨?_, ?_⟩
  · simp only [offset_to_cube, cube_to_offset, Prod.mk.injEq]
    exact ⟨trivial, by omega⟩
  · simp only [offset_to_cube, cube_to_offset, Prod.mk.injEq]
    exact ⟨by omega, trivial, by omega⟩

/-- C7: from the initial state (row 7, col 7, orientation 0 = east) on the
fixed map, `move_forward` commits the move to (row 7, col 8). -/
theorem move_forward_initial_example :
    move_forward init_uboat = { row := 7, col := 8, orientation := 0 } := by
  decide

/-- C3: starting from the initial state (row 7, col 7, orientation 0), every
finite sequence of turn and move-forward operations leaves the position in
bounds on a water tile and the orientation in 0-5. -/
theorem runOps_invariant (ops : List Op) :
    inBounds (runOps ops).row (runOps ops).col ∧
      isWater (terrain_at (runOps ops).row (runOps ops).col) ∧
      0 ≤ (runOps ops).orientation ∧ (runOps ops).orientation < 6 :=
  foldl_preserves_Inv ops init_uboat Inv_init

/-- C1: for every state with orientation 0-5, `move_forward` commits the
computed target exactly when it is in bounds with water terrain; in every
other case row and col are unchanged (and no error is raised: the function
is total). -/
theorem move_forward_guard (u : Uboat)
    (_ho : 0 ≤ u.orientation ∧ u.orientation < 6) :
    (inBounds (moveTarget u).1 (moveTarget u).2 ∧
        isWater (terrain_at (moveTarget u).1 (moveTarget u).2) →
      (move_forward u).row = (moveTarget u).1 ∧
        (move_forward u).col = (moveTarget u).2) ∧
      (¬(inBounds (moveTarget u).1 (moveTarget u).2 ∧
          isWater (terrain_at (moveTarget u).1 (moveTarget u).2)) →
        (move_forward u).row = u.row ∧ (move_forward u).col = u.col) := by
  constructor
  · rintro ⟨hb, hw⟩
    rw [move_forward_eq_target u hb hw]
    exact ⟨rfl, rfl⟩
  · intro h
    rw [move_forward_eq_self u h]
    exact ⟨rfl, rfl⟩

/-- Witness for C1 at the initial state. -/
theorem move_forward_guard_witness :
    (inBounds (moveTarget init_uboat).1 (moveTarget init_uboat).2 ∧
        isWater
          (terrain_at (moveTarget init_uboat).1 (moveTarget init_uboat).2) →
      (move_forward init_uboat).row = (moveTarget init_uboat).1 ∧
        (move_forward init_uboat).col = (moveTarget init_uboat).2) ∧
      (¬(inBounds (moveTarget init_uboat).1 (moveTarget init_uboat).2 ∧
          isWater
            (terrain_at (moveTarget init_uboat).1
              (moveTarget init_uboat).2)) →
        (move_forward init_uboat).row = init_uboat.row ∧
          (move_forward init_uboat).col = init_uboat.col) :=
  move_forward_guard init_uboat (by decide)

theorem cube_direction_sum (o : Int) (h0 : 0 ≤ o) (h1 : o < 6) :
    (cube_direction_of o).1 + (cube_direction_of o).2.1 +
      (cube_direction_of o).2.2 = 0 := by
  have h : o = 0 ∨ o = 1 ∨ o = 2 ∨ o = 3 ∨ o = 4 ∨ o = 5 := by omega
  rcases h with h | h | h | h | h | h <;> subst h <;> decide

/-- C2: the target coordinate of `move_forward` is obtained by converting the
offset coordinate to cube coordinates, adding the unit cube direction vector
selected by the orientation, and converting back; the cube coordinate sum
`q + r + s` is 0 both before and after the addition. -/
theorem move_forward_cube_path (u : Uboat)
    (ho : 0 ≤ u.orientation ∧ u.orientation < 6) :
    (offset_to_cube u.row u.col).1 + (offset_to_cube u.row u.col).2.1 +
        (offset_to_cube u.row u.col).2.2 = 0 ∧
      ((offset_to_cube u.row u.col).1 + (cube_direction_of u.orientation).1) +
          ((offset_to_cube u.row u.col).2.1 +
            (cube_direction_of u.orientation).2.1) +
          ((offset_to_cube u.row u.col).2.2 +
            (cube_direction_of u.orientation).2.2) = 0 ∧
      moveTarget u =
        cube_to_offset
          ((offset_to_cube u.row u.col).1 +
            (cube_direction_of u.orientation).1)
          ((offset_to_cube u.row u.col).2.1 +
            (cube_direction_of u.orientation).2.1) := by
  obtain ⟨h0, h1⟩ := ho
  have hs := cube_direction_sum u.orientation h0 h1
  refine ⟨?_, ?_, rfl⟩
  · simp only [offset_to_cube]
    omega
  · simp only [offset_to_cube] at hs ⊢
    omega

/-- Witness for C2 at the initial state. -/
theorem move_forward_cube_path_witness :
    (offset_to_cube init_uboat.row init_uboat.col).1 +
        (offset_to_cube init_uboat.row init_uboat.col).2.1 +
        (offset_to_cube init_uboat.row init_uboat.col).2.2 = 0 ∧
      ((offset_to_cube init_uboat.row init_uboat.col).1 +
          (cube_direction_of init_uboat.orientation).1) +
          ((offset_to_cube init_uboat.row init_uboat.col).2.1 +
            (cube_direction_of init_uboat.orientation).2.1) +
          ((offset_to_cube init_uboat.row init_uboat.col).2.2 +
            (cube_direction_of init_uboat.orientation).2.2) = 0 ∧
      moveTarget init_uboat =
        cube_to_offset
          ((offset_to_cube init_uboat.row init_uboat.col).1 +
            (cube_direction_of init_uboat.orientation).1)
          ((offset_to_cube init_uboat.row init_uboat.col).2.1 +
            (cube_direction_of init_uboat.orientation).2.1) :=
  move_forward_cube_path init_uboat (by decide)

/-- The initial world built by `main()`: the U-Boat from
`game_state["uboat_pos"]` / `game_state["uboat_orientation"]`, the
game-state bag, and the fixed map. -/
def init_world : World where
  uboat := init_uboat
  game_state := init_game_state
  map := game_map

/-- C8: for delta in {+1, -1}, turning changes only the orientation: the
submarine's row and col, the game-state bag, and the map are unchanged
(shown for both turn keys of the event loop). -/
theorem turn_frame (w : World) (d : Int) (_hd : d = 1 ∨ d = -1) :
    (turn w.uboat d).row = w.uboat.row ∧
      (turn w.uboat d).col = w.uboat.col ∧
      (handleKey w Key.K_d).game_state = w.game_state ∧
      (handleKey w Key.K_d).map = w.map ∧
      (handleKey w Key.K_a).game_state = w.game_state ∧
      (handleKey w Key.K_a).map = w.map :=
  ⟨rfl, rfl, rfl, rfl, rfl, rfl⟩

/-- Witness for C8 at the initial world, delta +1. -/
theorem turn_frame_witness :
    (turn init_world.uboat 1).row = init_world.uboat.row ∧
      (turn init_world.uboat 1).col = init_world.uboat.col ∧
      (handleKey init_world Key.K_d).game_state = init_world.game_state ∧
      (handleKey init_world Key.K_d).map = init_world.map ∧
      (handleKey init_world Key.K_a).game_state = init_world.game_state ∧
      (handleKey init_world Key.K_a).map = init_world.map :=
  turn_frame init_world 1 (Or.inl rfl)

/- ### Per-orientation target formulas and the reverse-move lemma -/

theorem moveTarget_zero (row col : Int) :
    moveTarget { row := row, col := col, orientation := 0 } =
      (row, col + 1) := by
  show cube_to_offset ((offset_to_cube row col).1 + 1)
      ((offset_to_cube row col).2.1 + 0) = (row, col + 1)
  simp only [offset_to_cube, cube_to_offset, Prod.mk.injEq, true_and,
    and_true]
  omega

theorem moveTarget_one (row col : Int) :
    moveTarget { row := row, col := col, orientation := 1 } =
      (row + 1, col + row % 2) := by
  show cube_to_offset ((offset_to_cube row col).1 + 0)
      ((offset_to_cube row col).2.1 + 1) = (row + 1, col + row % 2)
  simp only [offset_to_cube, cube_to_offset, Prod.mk.injEq, true_and,
    and_true]
  omega

theorem moveTarget_two (row col : Int) :
    moveTarget { row := row, col := col, orientation := 2 } =
      (row + 1, col + row % 2 - 1) := by
  show cube_to_offset ((offset_to_cube row col).1 + -1)
      ((offset_to_cube row col).2.1 + 1) = (row + 1, col + row % 2 - 1)
  simp only [offset_to_cube, cube_to_offset, Prod.mk.injEq, true_and,
    and_true]
  omega

theorem moveTarget_three (row col : Int) :
    moveTarget { row := row, col := col, orientation := 3 } =
      (row, col - 1) := by
  show cube_to_offset ((offset_to_cube row col).1 + -1)
      ((offset_to_cube row col).2.1 + 0) = (row, col - 1)
  simp only [offset_to_cube, cube_to_offset, Prod.mk.injEq, true_and,
    and_true]
  omega

theorem moveTarget_four (row col : Int) :
    moveTarget { row := row, col := col, orientation := 4 } =
      (row - 1, col + row % 2 - 1) := by
  show cube_to_offset ((offset_to_cube row col).1 + 0)
      ((offset_to_cube row col).2.1 + -1) = (row - 1, col + row % 2 - 1)
  simp only [offset_to_cube, cube_to_offset, Prod.mk.injEq, true_and,
    and_true]
  omega

theorem moveTarget_five (row col : Int) :
    moveTarget { row := row, col := col, orientation := 5 } =
      (row - 1, col + row % 2) := by
  show cube_to_offset ((offset_to_cube row col).1 + 1)
      ((offset_to_cube row col).2.1 + -1) = (row - 1, col + row % 2)
  simp only [offset_to_cube, cube_to_offset, Prod.mk.injEq, true_and,
    and_true]
  omega

theorem moveTarget_reverse (o row col : Int) (h0 : 0 ≤ o) (h1 : o < 6) :
    moveTarget
      { row := (moveTarget { row := row, col := col, orientation := o }).1,
        col := (moveTarget { row := row, col := col, orientation := o }).2,
        orientation := (o + 3) % 6 } = (row, col) := by
  have h : o = 0 ∨ o = 1 ∨ o = 2 ∨ o = 3 ∨ o = 4 ∨ o = 5 := by omega
  rcases h with h | h | h | h | h | h <;> subst h
  · rw [moveTarget_zero]
    show moveTarget { row := row, col := col + 1, orientation := 3 } =
      (row, col)
    rw [moveTarget_three]
    simp only [Prod.mk.injEq, true_and, and_true]
    omega
  · rw [moveTarget_one]
    show moveTarget
        { row := row + 1, col := col + row % 2, orientation := 4 } =
      (row, col)
    rw [moveTarget_four]
    simp only [Prod.mk.injEq, true_and, and_true]
    omega
  · rw [moveTarget_two]
    show moveTarget
        { row := row + 1, col := col + row % 2 - 1, orientation := 5 } =
      (row, col)
    rw [moveTarget_five]
    simp only [Prod.mk.injEq, true_and, and_true]
    omega
  · rw [moveTarget_three]
    show moveTarget { row := row, col := col - 1, orientation := 0 } =
      (row, col)
    rw [moveTarget_zero]
    simp only [Prod.mk.injEq, true_and, and_true]
    omega
  · rw [moveTarget_four]
    show moveTarget
        { row := row - 1, col := col + row % 2 - 1, orientation := 1 } =
      (row, col)
    rw [moveTarget_one]
    simp only [Prod.mk.injEq, true_and, and_true]
    omega
  · rw [moveTarget_five]
    show moveTarget
        { row := row - 1, col := col + row % 2, orientation := 2 } =
      (row, col)
    rw [moveTarget_two]
    simp only [Prod.mk.injEq, true_and, and_true]
    omega

/-- C5: on an interior water tile (current tile and facing-direction target
both in bounds with water terrain), moving forward, reversing the
orientation to `(o + 3) % 6`, and moving forward again returns the submarine
to its original offset coordinate. -/
theorem move_reverse_move_returns (u : Uboat)
    (ho : 0 ≤ u.orientation ∧ u.orientation < 6)
    (hcur : inBounds u.row u.col ∧ isWater (terrain_at u.row u.col))
    (htgt : inBounds (moveTarget u).1 (moveTarget u).2 ∧
        isWater (terrain_at (moveTarget u).1 (moveTarget u).2)) :
    (move_forward
          { move_forward u with
            orientation := (u.orientation + 3) % 6 }).row = u.row ∧
      (move_forward
          { move_forward u with
            orientation := (u.orientation + 3) % 6 }).col = u.col := by
  have hu1 : move_forward u =
      { u with row := (moveTarget u).1, col := (moveTarget u).2 } :=
    move_forward_eq_target u htgt.1 htgt.2
  have hu2 :
      ({ move_forward u with
          orientation := (u.orientation + 3) % 6 } : Uboat) =
        { row := (moveTarget u).1, col := (moveTarget u).2,
          orientation := (u.orientation + 3) % 6 } := by
    rw [hu1]
  have htgt2 :
      moveTarget
        ({ move_forward u with
            orientation := (u.orientation + 3) % 6 } : Uboat) =
        (u.row, u.col) := by
    rw [hu2]
    exact moveTarget_reverse u.orientation u.row u.col ho.1 ho.2
  have hcommit :
      move_forward
        ({ move_forward u with
            orientation := (u.orientation + 3) % 6 } : Uboat) =
        { ({ move_forward u with
              orientation := (u.orientation + 3) % 6 } : Uboat) with
          row :=
            (moveTarget
              ({ move_forward u with
                  orientation := (u.orientation + 3) % 6 } : Uboat)).1,
          col :=
            (moveTarget
              ({ move_forward u with
                  orientation := (u.orientation + 3) % 6 } : Uboat)).2 } := by
    apply move_forward_eq_target
    · rw [htgt2]
      exact hcur.1
    · rw [htgt2]
      exact hcur.2
  rw [hcommit, htgt2]
  exact ⟨rfl, rfl⟩

/-- Witness for C5 at the initial state (row 7, col 7, orientation 0). -/
theorem move_reverse_move_returns_witness :
    (move_forward
          { move_forward init_uboat with
            orientation := (init_uboat.orientation + 3) % 6 }).row =
        init_uboat.row ∧
      (move_forward
          { move_forward init_uboat with
            orientation := (init_uboat.orientation + 3) % 6 }).col =
        init_uboat.col :=
  move_reverse_move_returns init_uboat (by decide) (by decide) (by decide)

end LoneUBoat
